import Mathlib

set_option maxRecDepth 8192

/-!
Shallow embedding of the `neo4j-graphacademy/genai-mcp-build-custom-tools-python`
solution files.

The repository consists of five tutorial MCP-server files:
  * `src/solutions/strawberry/main.py`            — one tool, `count_letters`
  * `src/solutions/3c-create-first-server/main.py` — tool, prompt, two resources
  * `src/solutions/2c-add-neo4j-connection/main.py` — lifespan + `graph_statistics`
  * `src/solutions/6c-build-database-tool/main.py`  — adds `get_movies_by_genre`
  * `src/solutions/10c-paginated-tool/main.py`      — adds `get_movie` resource and
    the paginated `list_movies_by_genre` tool

The handlers are `async` Python functions whose only effects are
context-logging calls (`ctx.info` / `ctx.debug` / `ctx.warning` / `ctx.error`),
a single `driver.execute_query` call, and raising/re-raising exceptions.
We embed each handler as a pure function returning a trace of those effects
(`List Event`) together with an `Except PyErr` result; the Neo4j database is
an oracle `exec : Driver → QueryCall → Except PyErr (List ρ)` standing for
`driver.execute_query`, so that both success and query failure are covered.
Python `int` is `Int`; Python floor division `//` is `Int.fdiv`;
`None` is `Option.none`.
-/

namespace MCP

/-- Exceptions that can surface in the embedded handlers.  `zeroDivision`
is Python's `ZeroDivisionError`; `queryFailure` stands for any exception
raised by `driver.execute_query` (driver/server errors). -/
inductive PyErr where
  | zeroDivision
  | queryFailure (msg : String)
deriving Repr, DecidableEq

/-- A value passed as a Cypher query parameter. -/
inductive Param where
  | pstr (s : String)
  | pint (n : Int)
deriving Repr, DecidableEq

/-- The Neo4j driver object, as constructed by
`AsyncGraphDatabase.driver(uri, auth=(username, password))` in `app_lifespan`.
Its network behaviour is supplied separately by the `exec` oracle. -/
structure Driver where
  uri : String
  username : String
  password : String
deriving Repr, DecidableEq

/-- Dataclass `AppContext` from the solution files: a dataclass with exactly the two
fields `driver` and `database`. -/
structure AppContext where
  driver : Driver
  database : String
deriving Repr, DecidableEq

/-- One `driver.execute_query(...)` invocation: the query text, the query
parameters (keyword arguments), and the optional `database_` keyword. -/
structure QueryCall where
  cypher : String
  params : List (String × Param)
  database : Option String
deriving Repr, DecidableEq

/-- Observable effects of a handler or of the lifespan, in program order.
Log events record the kind of `ctx.*` logging call; `errorLog e` is the
`ctx.error(f"...: \x7bstr(e)\x7d")` call in an `except` block, carrying the
exception being logged.  `query d q` records `driver.execute_query` being
invoked on driver `d` with call `q`. -/
inductive Event where
  | info
  | debug
  | warning
  | errorLog (e : PyErr)
  | query (d : Driver) (q : QueryCall)
  | driverCreate (d : Driver)
  | driverClose (d : Driver)
deriving Repr, DecidableEq

/-- Is this event the creation of a driver object? -/
def Event.isDriverCreate : Event → Bool
  | .driverCreate _ => true
  | _ => false

/-- Is this event the closing of a driver object? -/
def Event.isDriverClose : Event → Bool
  | .driverClose _ => true
  | _ => false

/-- Is this event either driver-lifecycle event? -/
def Event.isDriverEvent (ev : Event) : Bool :=
  ev.isDriverCreate || ev.isDriverClose

/-! ### The Cypher texts (string literals from the source; `\x7b`/`\x7d`
are literal braces, surrounding whitespace of the Python triple-quoted
strings normalised to single newlines). -/

/-- Query text of `graph_statistics` (identical in 2c, 6c, 10c). -/
def statsCypher : String :=
  "RETURN COUNT \x7b()\x7d AS nodes, COUNT \x7b()-[]-()\x7d AS relationships"

/-- Query text of `get_movies_by_genre` (identical in 6c and 10c). -/
def moviesByGenreCypher : String :=
  "MATCH (m:Movie)-[:IN_GENRE]->(g:Genre \x7bname: $genre\x7d)\n" ++
  "RETURN m.title AS title,\n" ++
  "       m.imdbRating AS imdbRating,\n" ++
  "       m.released AS released\n" ++
  "ORDER BY coalesce(m.imdbRating, 0) DESC\n" ++
  "LIMIT $limit"

/-- Query text of the `get_movie` resource (10c). -/
def getMovieCypher : String :=
  "MATCH (m:Movie \x7btmdbId: $tmdb_id\x7d)\n" ++
  "RETURN m.title AS title,\n" ++
  "   m.released AS released,\n" ++
  "   m.tagline AS tagline,\n" ++
  "   m.runtime AS runtime,\n" ++
  "   m.plot AS plot,\n" ++
  "   [ (m)-[:IN_GENRE]->(g:Genre) | g.name ] AS genres,\n" ++
  "   [ (p)-[r:ACTED_IN]->(m) | \x7bname: p.name, role: r.role\x7d ] AS actors,\n" ++
  "   [ (d)-[:DIRECTED]->(m) | d.name ] AS directors"

/-- Query text of `list_movies_by_genre` (10c). -/
def listMoviesCypher : String :=
  "MATCH (m:Movie)-[:IN_GENRE]->(g:Genre \x7bname: $genre\x7d)\n" ++
  "RETURN m.title AS title,\n" ++
  "       m.released AS released,\n" ++
  "       m.imdbRating AS rating\n" ++
  "ORDER BY m.title ASC\n" ++
  "SKIP $skip\n" ++
  "LIMIT $limit"

/-- The query call made by `graph_statistics`: no parameters, explicit
`database_` keyword. -/
def statsQuery (database : String) : QueryCall :=
  ⟨statsCypher, [], some database⟩

/-- The query call made by `get_movies_by_genre`: `genre` and `limit`
passed as query parameters, no `database_` keyword. -/
def moviesQuery (genre : String) (limit : Int) : QueryCall :=
  ⟨moviesByGenreCypher, [("genre", .pstr genre), ("limit", .pint limit)], none⟩

/-- The query call made by the `get_movie` resource: `tmdb_id` passed as a
query parameter, explicit `database_` keyword. -/
def movieQuery (tmdb_id : String) (database : String) : QueryCall :=
  ⟨getMovieCypher, [("tmdb_id", .pstr tmdb_id)], some database⟩

/-- The query call made by `list_movies_by_genre`: `genre`, `skip` and
`limit` passed as query parameters, no `database_` keyword. -/
def listMoviesQuery (genre : String) (skip limit : Int) : QueryCall :=
  ⟨listMoviesCypher,
    [("genre", .pstr genre), ("skip", .pint skip), ("limit", .pint limit)], none⟩

/-- Does `pat` occur as a contiguous sublist of a character list? -/
def listContainsSub (pat : List Char) : List Char → Bool
  | [] => pat.isEmpty
  | c :: rest => pat.isPrefixOf (c :: rest) || listContainsSub pat rest

/-- Does `pat` occur as a substring of `s`? -/
def containsSub (s pat : String) : Bool :=
  listContainsSub pat.data s.data

/-- A Cypher text is read-only when it contains none of the Cypher
clauses that change database state. -/
def cypherIsReadOnly (s : String) : Bool :=
  !(containsSub s "CREATE") && !(containsSub s "MERGE") &&
  !(containsSub s "DELETE") && !(containsSub s "SET") &&
  !(containsSub s "REMOVE") && !(containsSub s "DROP") &&
  !(containsSub s "FOREACH") && !(containsSub s "LOAD CSV")

/-! ### The lifespan (identical in 2c, 6c and 10c) -/

/-- The `AppContext` that `app_lifespan` yields: connection details read
from the environment with the source's fixed fallback defaults, the driver
constructed from `uri` and `auth=(username, password)`. -/
def app_lifespan_context (env : String → Option String) : AppContext :=
  { driver :=
      { uri := (env "NEO4J_URI").getD "bolt://localhost:7687"
        username := (env "NEO4J_USERNAME").getD "neo4j"
        password := (env "NEO4J_PASSWORD").getD "password" }
    database := (env "NEO4J_DATABASE").getD "neo4j" }

/-- Lifespan `app_lifespan` (identical in 2c, 6c, 10c): create the driver on
startup, run the server body with the yielded `AppContext`, and close the
driver in a `finally:` block — i.e. on every exit path, whether the body
returns normally or an exception propagates out of it. -/
def app_lifespan {α : Type} (env : String → Option String)
    (body : AppContext → List Event × Except PyErr α) :
    List Event × Except PyErr α :=
  let ctx := app_lifespan_context env
  let r := body ctx
  (Event.driverCreate ctx.driver :: r.1 ++ [Event.driverClose ctx.driver], r.2)

/-! ### The handlers -/

/-- Tool `graph_statistics` (identical in 2c, 6c, 10c): run the counting query
against `ctx...driver` with `database_=database`; if any records came back
return `dict(records[0])` (records are embedded as association lists
already, so the `dict` conversion is the identity), else the zero dict.
No `try:` block: a query failure propagates without logging. -/
def graph_statistics
    (exec : Driver → QueryCall → Except PyErr (List (List (String × Int))))
    (ctx : AppContext) :
    List Event × Except PyErr (List (String × Int)) :=
  let q := statsQuery ctx.database
  match exec ctx.driver q with
  | .error e => ([Event.query ctx.driver q], .error e)
  | .ok records =>
    ([Event.query ctx.driver q],
      .ok (match records with
        | [] => [("nodes", 0), ("relationships", 0)]
        | r :: _ => r))

/-- Tool `get_movies_by_genre` (identical in 6c and 10c).  The row type `ρ` and
the `record.data()` conversion `data : ρ → δ` are parameters, because the
handler never inspects row contents.  Python default arguments
(`limit: int = 10`) are passed explicitly here.  On query failure the
handler logs `ctx.error` and re-raises the same exception. -/
def get_movies_by_genre {ρ δ : Type} (data : ρ → δ)
    (exec : Driver → QueryCall → Except PyErr (List ρ))
    (ctx : AppContext) (genre : String) (limit : Int) :
    List Event × Except PyErr (List δ) :=
  let ev1 := [Event.info, Event.debug]
  let q := moviesQuery genre limit
  match exec ctx.driver q with
  | .error e => (ev1 ++ [Event.query ctx.driver q, Event.errorLog e], .error e)
  | .ok records =>
    let movies := records.map data
    let ev2 := ev1 ++ [Event.query ctx.driver q, Event.info]
    let ev3 := if movies.length = 0 then ev2 ++ [Event.warning] else ev2
    (ev3, .ok movies)

/-- One entry of the `actors` list returned by the `get_movie` query:
`\x7bname: p.name, role: r.role\x7d`; `role` may be null. -/
structure ActorRow where
  name : String
  role : Option String
deriving Repr, DecidableEq

/-- One record of the `get_movie` query, in `record.data()` form.  Fields
that are merely interpolated into f-strings (`title`, `released`,
`runtime`, `plot`) are embedded by their formatted rendering; `tagline`
is `Option String` because the code tests its truthiness (`None` and the
empty string are falsy). -/
structure MovieDetail where
  title : String
  released : String
  tagline : Option String
  runtime : String
  plot : String
  genres : List String
  actors : List ActorRow
  directors : List String
deriving Repr, DecidableEq

/-- Python truthiness of an optional string: `None` and `""` are falsy. -/
def pyTruthyStr : Option String → Bool
  | none => false
  | some s => s ≠ ""

/-- Resource `get_movie` (10c), registered at `movie://\x7btmdb_id\x7d`:
fetch one movie by TMDB id (passing `database_=context.database`), return a
not-found message when no record matches, otherwise format the first
record as a Markdown document.  On query failure it logs `ctx.error` and
re-raises the same exception. -/
def get_movie
    (exec : Driver → QueryCall → Except PyErr (List MovieDetail))
    (ctx : AppContext) (tmdb_id : String) :
    List Event × Except PyErr String :=
  let ev1 := [Event.info]
  let q := movieQuery tmdb_id ctx.database
  match exec ctx.driver q with
  | .error e => (ev1 ++ [Event.query ctx.driver q, Event.errorLog e], .error e)
  | .ok records =>
    match records with
    | [] =>
      (ev1 ++ [Event.query ctx.driver q, Event.warning],
        .ok ("Movie with TMDB ID " ++ tmdb_id ++ " not found in database"))
    | movie :: _ =>
      let out1 := ["# " ++ movie.title ++ " (" ++ movie.released ++ ")", ""]
      let out2 :=
        if pyTruthyStr movie.tagline then
          out1 ++ ["_" ++ movie.tagline.getD "" ++ "_", ""]
        else out1
      let out3 := out2 ++
        ["**Runtime:** " ++ movie.runtime ++ " minutes",
        "**Genres:** " ++ String.intercalate ", " movie.genres]
      let out4 :=
        if movie.directors ≠ [] then
          out3 ++ ["**Director(s):** " ++ String.intercalate ", " movie.directors]
        else out3
      let out5 := out4 ++ ["", "## Plot", movie.plot]
      let out6 :=
        if movie.actors ≠ [] then
          out5 ++ ["", "## Cast"] ++ movie.actors.map (fun a =>
            if pyTruthyStr a.role then
              "- " ++ a.name ++ " as " ++ a.role.getD ""
            else
              "- " ++ a.name)
        else out5
      (ev1 ++ [Event.query ctx.driver q, Event.info],
        .ok (String.intercalate "\n" out6))

/-- The dictionary returned by `list_movies_by_genre`, with the row type of
the `movies` list generic. -/
structure PageResult (δ : Type) where
  genre : String
  movies : List δ
  next_cursor : Option Int
  page : Int
  page_size : Int
  has_more : Bool
deriving Repr, DecidableEq

/-- Tool `list_movies_by_genre` (10c): offset-based pagination.
`skip = cursor * page_size` is computed first; then
`page_num = (skip // page_size) + 1` raises `ZeroDivisionError` when
`page_size = 0` — before any logging and before any query.  Otherwise the
query runs with `skip` and `limit = page_size` as parameters, and
`next_cursor = skip + page_size` exactly when the page came back full
(`len(movies) == page_size`), else `None`.  `has_more` is
`next_cursor is not None`.  Python defaults (`page_size=10`, `cursor=0`)
are passed explicitly.  On query failure it logs and re-raises. -/
def list_movies_by_genre {ρ δ : Type} (data : ρ → δ)
    (exec : Driver → QueryCall → Except PyErr (List ρ))
    (ctx : AppContext) (genre : String) (page_size : Int) (cursor : Int) :
    List Event × Except PyErr (PageResult δ) :=
  let skip := cursor * page_size
  if page_size = 0 then
    ([], .error .zeroDivision)
  else
    let page_num := Int.fdiv skip page_size + 1
    let ev1 := [Event.info]
    let q := listMoviesQuery genre skip page_size
    match exec ctx.driver q with
    | .error e => (ev1 ++ [Event.query ctx.driver q, Event.errorLog e], .error e)
    | .ok records =>
      let movies := records.map data
      let next_cursor : Option Int :=
        if (movies.length : Int) = page_size then some (skip + page_size) else none
      let ev2 := ev1 ++ [Event.query ctx.driver q, Event.info]
      let ev3 := if next_cursor = none then ev2 ++ [Event.info] else ev2
      (ev3,
        .ok { genre := genre, movies := movies, next_cursor := next_cursor,
              page := page_num, page_size := page_size,
              has_more := next_cursor.isSome })

/-! ### What each solution file registers with the MCP server -/

/-- A registration made on the `FastMCP` instance by a solution file:
a `@mcp.tool()`, a `@mcp.resource(uri)`, or a `@mcp.prompt()`. -/
inductive Registration where
  | tool (fn : String)
  | resource (uri : String) (fn : String)
  | prompt (fn : String)
deriving Repr, DecidableEq

/-- Is a registration a callable tool? -/
def Registration.isTool : Registration → Bool
  | .tool _ => true
  | _ => false

/-- Is a registration a readable resource? -/
def Registration.isResource : Registration → Bool
  | .resource _ _ => true
  | _ => false

/-- Registrations of `src/solutions/strawberry/main.py`. -/
def strawberryFile : List Registration := [.tool "count_letters"]

/-- Registrations of `src/solutions/2c-add-neo4j-connection/main.py`. -/
def file2c : List Registration := [.tool "graph_statistics"]

/-- Registrations of `src/solutions/3c-create-first-server/main.py`. -/
def file3c : List Registration :=
  [.tool "count_letters", .prompt "list_fruits_prompt",
   .resource "cupboard://fruits" "fruits",
   .resource "cupboard://fruits/\x7bname\x7d" "fruit"]

/-- Registrations of `src/solutions/6c-build-database-tool/main.py`. -/
def file6c : List Registration :=
  [.tool "graph_statistics", .tool "get_movies_by_genre"]

/-- Registrations of `src/solutions/10c-paginated-tool/main.py`. -/
def file10c : List Registration :=
  [.tool "graph_statistics", .tool "get_movies_by_genre",
   .resource "movie://\x7btmdb_id\x7d" "get_movie",
   .tool "list_movies_by_genre"]

/-- The five solution files' registration lists. -/
def solutionFiles : List (List Registration) :=
  [strawberryFile, file2c, file3c, file6c, file10c]

/-! ### `count_letters` (strawberry and 3c):
`return text.lower().count(search.lower())`.
Python strings are embedded as `List Char`.  CPython's `str.lower` and
`str.upper` apply the Unicode full case mapping to each character — a map
from one character to a string, since e.g. `'ß'.upper() = "SS"` — and
concatenate.  We embed that structure (`pyLowerChar`/`pyUpperChar` of type
`Char → List Char`, flattened by `pyLower`/`pyUpper`) over a fragment of
the Unicode table: the basic Latin letters (arithmetically, as in
CPython's ASCII fast path) plus the Latin-1 pair `'É'`/`'é'` and the full
uppercase mapping `'ß' → "SS"`, which are the non-ASCII mappings the
theorems below exercise; characters outside the fragment are treated as
caseless.  Every case-dependent theorem below either holds for an
arbitrary case mapping or is restricted to the basic Latin range, where
the fragment agrees with CPython exactly. -/

/-- Unicode full lowercase mapping of one character, on the modelled
fragment: `A`–`Z` map arithmetically, `'É'` maps to `'é'`, everything
else is caseless. -/
def pyLowerChar (c : Char) : List Char :=
  if 65 ≤ c.toNat ∧ c.toNat ≤ 90 then [Char.ofNat (c.toNat + 32)]
  else if c = 'É' then ['é']
  else [c]

/-- Unicode full uppercase mapping of one character, on the modelled
fragment: `a`–`z` map arithmetically, `'é'` maps to `'É'`, `'ß'` maps to
the two-character string `"SS"` (its CPython full mapping), everything
else is caseless. -/
def pyUpperChar (c : Char) : List Char :=
  if 97 ≤ c.toNat ∧ c.toNat ≤ 122 then [Char.ofNat (c.toNat - 32)]
  else if c = 'é' then ['É']
  else if c = 'ß' then ['S', 'S']
  else [c]

/-- Python `str.lower`: each character's lowercase mapping, concatenated. -/
def pyLower (s : List Char) : List Char := (s.map pyLowerChar).flatten

/-- Python `str.upper`: each character's uppercase mapping, concatenated. -/
def pyUpper (s : List Char) : List Char := (s.map pyUpperChar).flatten

/-- Greedy left-to-right scan counting matches of `needle` and skipping
past each match (used by `pyCount` for nonempty needles). -/
def countOcc (needle : List Char) : List Char → Nat
  | [] => 0
  | c :: rest =>
    if needle.isPrefixOf (c :: rest) then
      1 + countOcc needle (rest.drop (needle.length - 1))
    else
      countOcc needle rest
termination_by l => l.length
decreasing_by
  · simp only [List.length_drop, List.length_cons]; omega
  · simp only [List.length_cons]; omega

/-- Python `str.count` of CPython: for the empty needle, one match at each of the
`len + 1` positions; otherwise the greedy non-overlapping count. -/
def pyCount (hay needle : List Char) : Nat :=
  if needle.isEmpty then hay.length + 1 else countOcc needle hay

/-- Tool `count_letters(text, search)` from the source:
`text.lower().count(search.lower())`. -/
def count_letters (text search : List Char) : Nat :=
  pyCount (pyLower text) (pyLower search)

/-- Specification-side count: the number of non-overlapping occurrences of
`needle` in `hay`, scanning every position including the final empty
suffix (where only the empty needle can match). -/
def countNonOverlapping (needle : List Char) : List Char → Nat
  | [] => if needle.isEmpty then 1 else 0
  | c :: rest =>
    if needle.isPrefixOf (c :: rest) then
      1 + countNonOverlapping needle (rest.drop (needle.length - 1))
    else
      countNonOverlapping needle rest
termination_by l => l.length
decreasing_by
  · simp only [List.length_drop, List.length_cons]; omega
  · simp only [List.length_cons]; omega

/-! ## Helper lemmas -/

/-- Every query event in a `graph_statistics` trace is the stats query on
the context's driver. -/
theorem graph_statistics_query_mem
    (exec : Driver → QueryCall → Except PyErr (List (List (String × Int))))
    (ctx : AppContext) {d : Driver} {q : QueryCall}
    (h : Event.query d q ∈ (graph_statistics exec ctx).1) :
    d = ctx.driver ∧ q = statsQuery ctx.database := by
  cases hex : exec ctx.driver (statsQuery ctx.database) with
  | error e =>
    simp only [graph_statistics, hex] at h
    simpa using h
  | ok records =>
    simp only [graph_statistics, hex] at h
    simpa using h

/-- Every query event in a `get_movies_by_genre` trace is the by-genre
query on the context's driver. -/
theorem get_movies_by_genre_query_mem {ρ δ : Type} (data : ρ → δ)
    (exec : Driver → QueryCall → Except PyErr (List ρ))
    (ctx : AppContext) (genre : String) (limit : Int) {d : Driver} {q : QueryCall}
    (h : Event.query d q ∈ (get_movies_by_genre data exec ctx genre limit).1) :
    d = ctx.driver ∧ q = moviesQuery genre limit := by
  cases hex : exec ctx.driver (moviesQuery genre limit) with
  | error e =>
    simp only [get_movies_by_genre, hex] at h
    simpa using h
  | ok records =>
    simp only [get_movies_by_genre, hex] at h
    split at h <;> simpa using h

/-- Every query event in a `get_movie` trace is the single-movie query on
the context's driver. -/
theorem get_movie_query_mem
    (exec : Driver → QueryCall → Except PyErr (List MovieDetail))
    (ctx : AppContext) (tmdb_id : String) {d : Driver} {q : QueryCall}
    (h : Event.query d q ∈ (get_movie exec ctx tmdb_id).1) :
    d = ctx.driver ∧ q = movieQuery tmdb_id ctx.database := by
  cases hex : exec ctx.driver (movieQuery tmdb_id ctx.database) with
  | error e =>
    simp only [get_movie, hex] at h
    simpa using h
  | ok records =>
    cases records with
    | nil =>
      simp only [get_movie, hex] at h
      simpa using h
    | cons movie rest =>
      simp only [get_movie, hex] at h
      simpa using h

/-- Every query event in a `list_movies_by_genre` trace is the paginated
query on the context's driver, with offset `cursor * page_size`. -/
theorem list_movies_by_genre_query_mem {ρ δ : Type} (data : ρ → δ)
    (exec : Driver → QueryCall → Except PyErr (List ρ))
    (ctx : AppContext) (genre : String) (page_size cursor : Int)
    {d : Driver} {q : QueryCall}
    (h : Event.query d q ∈ (list_movies_by_genre data exec ctx genre page_size cursor).1) :
    d = ctx.driver ∧ q = listMoviesQuery genre (cursor * page_size) page_size := by
  by_cases hps : page_size = 0
  · simp [list_movies_by_genre, hps] at h
  · cases hex : exec ctx.driver (listMoviesQuery genre (cursor * page_size) page_size) with
    | error e =>
      simp only [list_movies_by_genre, hps, if_false, hex] at h
      simpa using h
    | ok records =>
      simp only [list_movies_by_genre, hps, if_false, hex] at h
      split at h <;> simpa using h

/-! ## Claims -/

/-- C1: for every call to `list_movies_by_genre` with cursor `c` and page
size `s`, the offset passed to the query is `skip = c * s`, and the
returned `next_cursor` equals `skip + s` exactly when the returned movies
list has length `s` (the page is full), and is null (`none`) otherwise. -/
theorem claim_C1_pagination_arithmetic {ρ δ : Type} (data : ρ → δ)
    (exec : Driver → QueryCall → Except PyErr (List ρ))
    (ctx : AppContext) (genre : String) (page_size cursor : Int) :
    (∀ d q, Event.query d q ∈
        (list_movies_by_genre data exec ctx genre page_size cursor).1 →
      ("skip", Param.pint (cursor * page_size)) ∈ q.params) ∧
    ∀ r, (list_movies_by_genre data exec ctx genre page_size cursor).2 = Except.ok r →
      (r.next_cursor = some (cursor * page_size + page_size) ↔
        (r.movies.length : Int) = page_size) ∧
      (r.next_cursor = none ↔ (r.movies.length : Int) ≠ page_size) := by
  constructor
  · intro d q hq
    obtain ⟨-, hq⟩ :=
      list_movies_by_genre_query_mem data exec ctx genre page_size cursor hq
    subst hq
    simp [listMoviesQuery]
  · intro r hr
    by_cases hps : page_size = 0
    · simp [list_movies_by_genre, hps] at hr
    · cases hex : exec ctx.driver (listMoviesQuery genre (cursor * page_size) page_size) with
      | error e => simp [list_movies_by_genre, hps, hex] at hr
      | ok records =>
        simp only [list_movies_by_genre, hps, if_false, hex] at hr
        obtain rfl : _ = r := congrArg (fun x => x) (Except.ok.inj hr)
        by_cases hlen : ((records.map data).length : Int) = page_size
        · simp [hlen]
        · simp [hlen]

/-- C2: calling `list_movies_by_genre` with `page_size = 0` raises
`ZeroDivisionError` from `skip // page_size` before any query is issued
(the trace is empty, in particular free of query events); when
`page_size ≠ 0` and the driver itself never raises `ZeroDivisionError`,
the call never produces a `ZeroDivisionError`. -/
theorem claim_C2_zero_page_size {ρ δ : Type} (data : ρ → δ)
    (exec : Driver → QueryCall → Except PyErr (List ρ))
    (ctx : AppContext) (genre : String) (page_size cursor : Int) :
    (page_size = 0 →
      list_movies_by_genre data exec ctx genre page_size cursor =
        ([], Except.error PyErr.zeroDivision)) ∧
    (page_size ≠ 0 →
      (∀ q, exec ctx.driver q ≠ Except.error PyErr.zeroDivision) →
      (list_movies_by_genre data exec ctx genre page_size cursor).2 ≠
        Except.error PyErr.zeroDivision) := by
  constructor
  · intro hps
    simp [list_movies_by_genre, hps]
  · intro hps hexec
    cases hex : exec ctx.driver (listMoviesQuery genre (cursor * page_size) page_size) with
    | error e =>
      simp only [list_movies_by_genre, hps, if_false, hex]
      intro hcontra
      exact hexec _ (hex.trans (congrArg Except.error (Except.error.inj hcontra)))
    | ok records =>
      simp only [list_movies_by_genre, hps, if_false, hex]
      split <;> simp

/-- Witness for C1: with a database returning three rows for page size 3
and cursor 2, the skip parameter is `2 * 3 = 6` and the full page yields
`next_cursor = some 9`. -/
theorem claim_C1_pagination_arithmetic_witness :
    ("skip", Param.pint (2 * 3)) ∈ (listMoviesQuery "Action" (2 * 3) 3).params ∧
    ((({ genre := "Action", movies := [1, 2, 3], next_cursor := some 9, page := 3,
          page_size := 3, has_more := true } : PageResult Nat).next_cursor =
        some (2 * 3 + 3)) ↔
      ((([1, 2, 3] : List Nat).length : Int) = 3)) := by
  have h := claim_C1_pagination_arithmetic (fun n : Nat => n)
    (fun _ _ => Except.ok [1, 2, 3]) ⟨⟨"u", "n", "p"⟩, "db"⟩ "Action" 3 2
  refine ⟨h.1 ⟨"u", "n", "p"⟩ (listMoviesQuery "Action" (2 * 3) 3) (by decide),
    (h.2 _ rfl).1⟩

/-- Witness for C2: with page size 0 the call returns `ZeroDivisionError`
with an empty trace; with page size 3 it does not. -/
theorem claim_C2_zero_page_size_witness :
    (list_movies_by_genre (fun n : Nat => n) (fun _ _ => Except.ok [1, 2, 3])
        ⟨⟨"u", "n", "p"⟩, "db"⟩ "Action" 0 5 = ([], Except.error PyErr.zeroDivision)) ∧
    ((list_movies_by_genre (fun n : Nat => n) (fun _ _ => Except.ok [1, 2, 3])
        ⟨⟨"u", "n", "p"⟩, "db"⟩ "Action" 3 5).2 ≠ Except.error PyErr.zeroDivision) := by
  have h0 := claim_C2_zero_page_size (fun n : Nat => n)
    (fun _ _ => Except.ok [1, 2, 3]) ⟨⟨"u", "n", "p"⟩, "db"⟩ "Action" 0 5
  have h3 := claim_C2_zero_page_size (fun n : Nat => n)
    (fun _ _ => Except.ok [1, 2, 3]) ⟨⟨"u", "n", "p"⟩, "db"⟩ "Action" 3 5
  exact ⟨h0.1 rfl, h3.2 (by decide) (fun q hq => Except.noConfusion hq)⟩

/-- C3: each of the three query handlers `get_movies_by_genre`,
`get_movie` and `list_movies_by_genre`, when the underlying query raises
an exception `e`, logs the error (`ctx.error`, the final trace event
carrying `e`) and re-raises the same exception `e` unchanged — no
recovery, transformation, or swallowing. -/
theorem claim_C3_log_and_reraise :
    (∀ (ρ δ : Type) (data : ρ → δ)
        (exec : Driver → QueryCall → Except PyErr (List ρ))
        (ctx : AppContext) (genre : String) (limit : Int) (e : PyErr),
      exec ctx.driver (moviesQuery genre limit) = Except.error e →
      get_movies_by_genre data exec ctx genre limit =
        ([Event.info, Event.debug, Event.query ctx.driver (moviesQuery genre limit),
          Event.errorLog e], Except.error e)) ∧
    (∀ (exec : Driver → QueryCall → Except PyErr (List MovieDetail))
        (ctx : AppContext) (tmdb_id : String) (e : PyErr),
      exec ctx.driver (movieQuery tmdb_id ctx.database) = Except.error e →
      get_movie exec ctx tmdb_id =
        ([Event.info, Event.query ctx.driver (movieQuery tmdb_id ctx.database),
          Event.errorLog e], Except.error e)) ∧
    (∀ (ρ δ : Type) (data : ρ → δ)
        (exec : Driver → QueryCall → Except PyErr (List ρ))
        (ctx : AppContext) (genre : String) (page_size cursor : Int) (e : PyErr),
      page_size ≠ 0 →
      exec ctx.driver (listMoviesQuery genre (cursor * page_size) page_size) =
        Except.error e →
      list_movies_by_genre data exec ctx genre page_size cursor =
        ([Event.info,
          Event.query ctx.driver (listMoviesQuery genre (cursor * page_size) page_size),
          Event.errorLog e], Except.error e)) := by
  refine ⟨?_, ?_, ?_⟩
  · intro ρ δ data exec ctx genre limit e hex
    simp [get_movies_by_genre, hex]
  · intro exec ctx tmdb_id e hex
    simp [get_movie, hex]
  · intro ρ δ data exec ctx genre page_size cursor e hps hex
    simp [list_movies_by_genre, hps, hex]

/-- Witness for C3: a database that always raises `queryFailure "boom"`
makes each of the three handlers log that exception and re-raise it. -/
theorem claim_C3_log_and_reraise_witness :
    (get_movies_by_genre (fun n : Nat => n)
        (fun _ _ => Except.error (PyErr.queryFailure "boom"))
        ⟨⟨"u", "n", "p"⟩, "db"⟩ "Action" 10 =
      ([Event.info, Event.debug,
        Event.query ⟨"u", "n", "p"⟩ (moviesQuery "Action" 10),
        Event.errorLog (PyErr.queryFailure "boom")],
        Except.error (PyErr.queryFailure "boom"))) ∧
    (get_movie (fun _ _ => Except.error (PyErr.queryFailure "boom"))
        ⟨⟨"u", "n", "p"⟩, "db"⟩ "603" =
      ([Event.info, Event.query ⟨"u", "n", "p"⟩ (movieQuery "603" "db"),
        Event.errorLog (PyErr.queryFailure "boom")],
        Except.error (PyErr.queryFailure "boom"))) ∧
    (list_movies_by_genre (fun n : Nat => n)
        (fun _ _ => Except.error (PyErr.queryFailure "boom"))
        ⟨⟨"u", "n", "p"⟩, "db"⟩ "Action" 10 0 =
      ([Event.info, Event.query ⟨"u", "n", "p"⟩ (listMoviesQuery "Action" 0 10),
        Event.errorLog (PyErr.queryFailure "boom")],
        Except.error (PyErr.queryFailure "boom"))) := by
  refine ⟨claim_C3_log_and_reraise.1 Nat Nat (fun n => n) _ _ "Action" 10 _ rfl,
    claim_C3_log_and_reraise.2.1 _ _ "603" _ rfl,
    ?_⟩
  have h := claim_C3_log_and_reraise.2.2 Nat Nat (fun n => n)
    (fun _ _ => Except.error (PyErr.queryFailure "boom"))
    ⟨⟨"u", "n", "p"⟩, "db"⟩ "Action" 10 0 (PyErr.queryFailure "boom")
    (by decide) rfl
  simpa using h

/-- The lifespan trace is exactly: driver creation, the body's trace, then
the driver close from the `finally:` block; the result is the body's. -/
theorem app_lifespan_trace (α : Type) (env : String → Option String)
    (body : AppContext → List Event × Except PyErr α) :
    app_lifespan env body =
      (Event.driverCreate (app_lifespan_context env).driver ::
        ((body (app_lifespan_context env)).1 ++
          [Event.driverClose (app_lifespan_context env).driver]),
        (body (app_lifespan_context env)).2) := rfl

/-- A `graph_statistics` trace contains no driver-lifecycle events. -/
theorem graph_statistics_no_driver_events
    (exec : Driver → QueryCall → Except PyErr (List (List (String × Int))))
    (ctx : AppContext) :
    ((graph_statistics exec ctx).1.all fun ev => !ev.isDriverEvent) = true := by
  cases hex : exec ctx.driver (statsQuery ctx.database) with
  | error e =>
    simp [graph_statistics, hex, Event.isDriverEvent, Event.isDriverCreate,
      Event.isDriverClose]
  | ok records =>
    simp [graph_statistics, hex, Event.isDriverEvent, Event.isDriverCreate,
      Event.isDriverClose]

/-- A `get_movies_by_genre` trace contains no driver-lifecycle events. -/
theorem get_movies_by_genre_no_driver_events {ρ δ : Type} (data : ρ → δ)
    (exec : Driver → QueryCall → Except PyErr (List ρ))
    (ctx : AppContext) (genre : String) (limit : Int) :
    ((get_movies_by_genre data exec ctx genre limit).1.all
      fun ev => !ev.isDriverEvent) = true := by
  cases hex : exec ctx.driver (moviesQuery genre limit) with
  | error e =>
    simp [get_movies_by_genre, hex, Event.isDriverEvent, Event.isDriverCreate,
      Event.isDriverClose]
  | ok records =>
    simp only [get_movies_by_genre, hex]
    split <;>
      simp [Event.isDriverEvent, Event.isDriverCreate, Event.isDriverClose]

/-- A `get_movie` trace contains no driver-lifecycle events. -/
theorem get_movie_no_driver_events
    (exec : Driver → QueryCall → Except PyErr (List MovieDetail))
    (ctx : AppContext) (tmdb_id : String) :
    ((get_movie exec ctx tmdb_id).1.all fun ev => !ev.isDriverEvent) = true := by
  cases hex : exec ctx.driver (movieQuery tmdb_id ctx.database) with
  | error e =>
    simp [get_movie, hex, Event.isDriverEvent, Event.isDriverCreate,
      Event.isDriverClose]
  | ok records =>
    cases records with
    | nil =>
      simp [get_movie, hex, Event.isDriverEvent, Event.isDriverCreate,
        Event.isDriverClose]
    | cons movie rest =>
      simp [get_movie, hex, Event.isDriverEvent, Event.isDriverCreate,
        Event.isDriverClose]

/-- A `list_movies_by_genre` trace contains no driver-lifecycle events. -/
theorem list_movies_by_genre_no_driver_events {ρ δ : Type} (data : ρ → δ)
    (exec : Driver → QueryCall → Except PyErr (List ρ))
    (ctx : AppContext) (genre : String) (page_size cursor : Int) :
    ((list_movies_by_genre data exec ctx genre page_size cursor).1.all
      fun ev => !ev.isDriverEvent) = true := by
  by_cases hps : page_size = 0
  · simp [list_movies_by_genre, hps]
  · cases hex : exec ctx.driver (listMoviesQuery genre (cursor * page_size) page_size) with
    | error e =>
      simp [list_movies_by_genre, hps, hex, Event.isDriverEvent,
        Event.isDriverCreate, Event.isDriverClose]
    | ok records =>
      simp only [list_movies_by_genre, hps, if_false, hex]
      split <;>
        simp [Event.isDriverEvent, Event.isDriverCreate, Event.isDriverClose]

/-- C5: in every database-backed solution file (2c, 6c, 10c share this
`app_lifespan` verbatim), the lifespan creates exactly one driver at
startup (the first trace event) and closes that same driver at shutdown
(the last trace event), on every exit path — whether the server body
returns normally or propagates an exception — and no handler ever creates
or closes a driver itself. -/
theorem claim_C5_driver_lifecycle :
    (∀ (α : Type) (env : String → Option String)
        (body : AppContext → List Event × Except PyErr α),
      (∀ ev ∈ (body (app_lifespan_context env)).1, ev.isDriverEvent = false) →
      (app_lifespan env body).1.countP (fun ev => ev.isDriverCreate) = 1 ∧
      (app_lifespan env body).1.countP (fun ev => ev.isDriverClose) = 1 ∧
      (app_lifespan env body).1.head? =
        some (Event.driverCreate (app_lifespan_context env).driver) ∧
      (app_lifespan env body).1.getLast? =
        some (Event.driverClose (app_lifespan_context env).driver) ∧
      (app_lifespan env body).2 = (body (app_lifespan_context env)).2) ∧
    (∀ exec ctx ev, ev ∈ (graph_statistics exec ctx).1 →
      Event.isDriverEvent ev = false) ∧
    (∀ (ρ δ : Type) (data : ρ → δ) exec ctx genre limit ev,
      ev ∈ (get_movies_by_genre data exec ctx genre limit).1 →
      Event.isDriverEvent ev = false) ∧
    (∀ exec ctx tmdb_id ev, ev ∈ (get_movie exec ctx tmdb_id).1 →
      Event.isDriverEvent ev = false) ∧
    (∀ (ρ δ : Type) (data : ρ → δ) exec ctx genre page_size cursor ev,
      ev ∈ (list_movies_by_genre data exec ctx genre page_size cursor).1 →
      Event.isDriverEvent ev = false) := by
  refine ⟨?_, ?_, ?_, ?_, ?_⟩
  · intro α env body hbody
    have hcreate0 : (body (app_lifespan_context env)).1.countP
        (fun ev => ev.isDriverCreate) = 0 := by
      rw [List.countP_eq_zero]
      intro ev hev
      have h1 := hbody ev hev
      simp only [Event.isDriverEvent, Bool.or_eq_false_iff] at h1
      simp [h1.1]
    have hclose0 : (body (app_lifespan_context env)).1.countP
        (fun ev => ev.isDriverClose) = 0 := by
      rw [List.countP_eq_zero]
      intro ev hev
      have h1 := hbody ev hev
      simp only [Event.isDriverEvent, Bool.or_eq_false_iff] at h1
      simp [h1.2]
    rw [app_lifespan_trace]
    refine ⟨?_, ?_, ?_, ?_, ?_⟩
    · rw [List.countP_cons, List.countP_append, hcreate0]
      simp [Event.isDriverCreate, Event.isDriverClose, List.countP_cons]
    · rw [List.countP_cons, List.countP_append, hclose0]
      simp [Event.isDriverCreate, Event.isDriverClose, List.countP_cons]
    · rfl
    · rw [← List.cons_append, List.getLast?_concat]
    · rfl
  · intro exec ctx ev hev
    have h1 := List.all_eq_true.mp (graph_statistics_no_driver_events exec ctx) ev hev
    simpa using h1
  · intro ρ δ data exec ctx genre limit ev hev
    have h1 := List.all_eq_true.mp
      (get_movies_by_genre_no_driver_events data exec ctx genre limit) ev hev
    simpa using h1
  · intro exec ctx tmdb_id ev hev
    have h1 := List.all_eq_true.mp
      (get_movie_no_driver_events exec ctx tmdb_id) ev hev
    simpa using h1
  · intro ρ δ data exec ctx genre page_size cursor ev hev
    have h1 := List.all_eq_true.mp
      (list_movies_by_genre_no_driver_events data exec ctx genre page_size cursor) ev hev
    simpa using h1

/-- Witness for C5: with all environment variables unset and a server body
that raises a query failure after logging once, the lifespan still closes
the one created driver as its final event. -/
theorem claim_C5_driver_lifecycle_witness :
    (app_lifespan (fun _ => none)
        (fun _ => ([Event.info], Except.error (PyErr.queryFailure "crash")))
        (α := Unit)).1.countP (fun ev => ev.isDriverCreate) = 1 ∧
    (app_lifespan (fun _ => none)
        (fun _ => ([Event.info], Except.error (PyErr.queryFailure "crash")))
        (α := Unit)).1.getLast? =
      some (Event.driverClose ⟨"bolt://localhost:7687", "neo4j", "password"⟩) := by
  have h := claim_C5_driver_lifecycle.1 Unit (fun _ => none)
    (fun _ => ([Event.info], Except.error (PyErr.queryFailure "crash")))
    (by intro ev hev; simp only [List.mem_singleton] at hev; subst hev; rfl)
  exact ⟨h.1, h.2.2.2.1⟩

/-- C6: every graph query issued by any handler is a parameterized
read-only query: each handler's query text is a fixed constant that passes
the read-only check, user-supplied values (`genre`, `limit`, `cursor` via
`skip`, `tmdb_id`) travel only in the parameter list, and every query
event in any handler trace carries exactly that fixed text with those
parameters. -/
theorem claim_C6_parameterized_readonly :
    (cypherIsReadOnly statsCypher = true ∧
      cypherIsReadOnly moviesByGenreCypher = true ∧
      cypherIsReadOnly getMovieCypher = true ∧
      cypherIsReadOnly listMoviesCypher = true) ∧
    (∀ database, (statsQuery database).cypher = statsCypher ∧
      (statsQuery database).params = []) ∧
    (∀ genre limit, (moviesQuery genre limit).cypher = moviesByGenreCypher ∧
      (moviesQuery genre limit).params =
        [("genre", Param.pstr genre), ("limit", Param.pint limit)]) ∧
    (∀ tmdb_id database, (movieQuery tmdb_id database).cypher = getMovieCypher ∧
      (movieQuery tmdb_id database).params = [("tmdb_id", Param.pstr tmdb_id)]) ∧
    (∀ genre skip limit, (listMoviesQuery genre skip limit).cypher = listMoviesCypher ∧
      (listMoviesQuery genre skip limit).params =
        [("genre", Param.pstr genre), ("skip", Param.pint skip),
          ("limit", Param.pint limit)]) ∧
    (∀ exec ctx d q, Event.query d q ∈ (graph_statistics exec ctx).1 →
      q = statsQuery ctx.database) ∧
    (∀ (ρ δ : Type) (data : ρ → δ) exec ctx genre limit d q,
      Event.query d q ∈ (get_movies_by_genre data exec ctx genre limit).1 →
      q = moviesQuery genre limit) ∧
    (∀ exec ctx tmdb_id d q, Event.query d q ∈ (get_movie exec ctx tmdb_id).1 →
      q = movieQuery tmdb_id ctx.database) ∧
    (∀ (ρ δ : Type) (data : ρ → δ) exec ctx genre page_size cursor d q,
      Event.query d q ∈
        (list_movies_by_genre data exec ctx genre page_size cursor).1 →
      q = listMoviesQuery genre (cursor * page_size) page_size) := by
  refine ⟨⟨by decide, by decide, by decide, by decide⟩,
    fun database => ⟨rfl, rfl⟩,
    fun genre limit => ⟨rfl, rfl⟩,
    fun tmdb_id database => ⟨rfl, rfl⟩,
    fun genre skip limit => ⟨rfl, rfl⟩,
    ?_, ?_, ?_, ?_⟩
  · intro exec ctx d q hq
    exact (graph_statistics_query_mem exec ctx hq).2
  · intro ρ δ data exec ctx genre limit d q hq
    exact (get_movies_by_genre_query_mem data exec ctx genre limit hq).2
  · intro exec ctx tmdb_id d q hq
    exact (get_movie_query_mem exec ctx tmdb_id hq).2
  · intro ρ δ data exec ctx genre page_size cursor d q hq
    exact (list_movies_by_genre_query_mem data exec ctx genre page_size cursor hq).2

/-- Witness for C6: the single query event of a concrete
`graph_statistics` run carries the fixed stats query. -/
theorem claim_C6_parameterized_readonly_witness :
    cypherIsReadOnly statsCypher = true ∧
    (Event.query ⟨"u", "n", "p"⟩ (statsQuery "db") ∈
        (graph_statistics (fun _ _ => Except.ok [[("nodes", 5), ("relationships", 2)]])
          ⟨⟨"u", "n", "p"⟩, "db"⟩).1 →
      statsQuery "db" = statsQuery "db") := by
  refine ⟨claim_C6_parameterized_readonly.1.1, ?_⟩
  intro hq
  exact claim_C6_parameterized_readonly.2.2.2.2.2.1
    (fun _ _ => Except.ok [[("nodes", 5), ("relationships", 2)]])
    ⟨⟨"u", "n", "p"⟩, "db"⟩ ⟨"u", "n", "p"⟩ (statsQuery "db") hq

/-- C7: all connection settings are read from the four environment
variables at lifespan startup, each falling back to its fixed default when
unset, and the resulting context depends on nothing but those four
variables. -/
theorem claim_C7_env_configuration :
    (∀ env, app_lifespan_context env =
      ⟨⟨(env "NEO4J_URI").getD "bolt://localhost:7687",
        (env "NEO4J_USERNAME").getD "neo4j",
        (env "NEO4J_PASSWORD").getD "password"⟩,
        (env "NEO4J_DATABASE").getD "neo4j"⟩) ∧
    (app_lifespan_context (fun _ => none) =
      ⟨⟨"bolt://localhost:7687", "neo4j", "password"⟩, "neo4j"⟩) ∧
    (∀ env₁ env₂ : String → Option String,
      env₁ "NEO4J_URI" = env₂ "NEO4J_URI" →
      env₁ "NEO4J_USERNAME" = env₂ "NEO4J_USERNAME" →
      env₁ "NEO4J_PASSWORD" = env₂ "NEO4J_PASSWORD" →
      env₁ "NEO4J_DATABASE" = env₂ "NEO4J_DATABASE" →
      app_lifespan_context env₁ = app_lifespan_context env₂) := by
  refine ⟨fun env => rfl, rfl, ?_⟩
  intro env₁ env₂ h1 h2 h3 h4
  simp [app_lifespan_context, h1, h2, h3, h4]

/-- Witness for C7: two environments agreeing on the four variables (one
setting extra irrelevant keys) produce the same context. -/
theorem claim_C7_env_configuration_witness :
    app_lifespan_context (fun k => if k = "NEO4J_URI" then some "bolt://db:7687" else none) =
      app_lifespan_context (fun k =>
        if k = "NEO4J_URI" then some "bolt://db:7687"
        else if k = "HOME" then some "/root" else none) := by
  refine claim_C7_env_configuration.2.2 _ _ ?_ ?_ ?_ ?_ <;> decide

/-- C8: `graph_statistics` returns exactly
`\x7b"nodes": 0, "relationships": 0\x7d` when the query yields no records,
and otherwise the first record converted to a dictionary, ignoring all
further records. -/
theorem claim_C8_stats_first_record
    (exec : Driver → QueryCall → Except PyErr (List (List (String × Int))))
    (ctx : AppContext) :
    (exec ctx.driver (statsQuery ctx.database) = Except.ok [] →
      (graph_statistics exec ctx).2 = Except.ok [("nodes", 0), ("relationships", 0)]) ∧
    (∀ r rs, exec ctx.driver (statsQuery ctx.database) = Except.ok (r :: rs) →
      (graph_statistics exec ctx).2 = Except.ok r) := by
  constructor
  · intro hex
    simp [graph_statistics, hex]
  · intro r rs hex
    simp [graph_statistics, hex]

/-- Witness for C8: an empty result gives the zero dictionary; a
two-record result gives the first record only. -/
theorem claim_C8_stats_first_record_witness :
    ((graph_statistics (fun _ _ => Except.ok []) ⟨⟨"u", "n", "p"⟩, "db"⟩).2 =
      Except.ok [("nodes", 0), ("relationships", 0)]) ∧
    ((graph_statistics
        (fun _ _ => Except.ok [[("nodes", 7), ("relationships", 3)], [("nodes", 9), ("relationships", 9)]])
        ⟨⟨"u", "n", "p"⟩, "db"⟩).2 =
      Except.ok [("nodes", 7), ("relationships", 3)]) :=
  ⟨(claim_C8_stats_first_record (fun _ _ => Except.ok []) ⟨⟨"u", "n", "p"⟩, "db"⟩).1 rfl,
    (claim_C8_stats_first_record
      (fun _ _ => Except.ok [[("nodes", 7), ("relationships", 3)], [("nodes", 9), ("relationships", 9)]])
      ⟨⟨"u", "n", "p"⟩, "db"⟩).2 [("nodes", 7), ("relationships", 3)]
      [[("nodes", 9), ("relationships", 9)]] rfl⟩

/-- C10: the application context is a dataclass holding exactly the two
fields `driver` and `database` (every context is rebuilt from those two
projections), and every handler obtains the driver it queries with by
reading the `driver` field of the lifespan context (all handlers are pure
functions of the context, so none mutates its fields). -/
theorem claim_C10_context_shape :
    (∀ a : AppContext, a = ⟨a.driver, a.database⟩) ∧
    (∀ exec ctx d q, Event.query d q ∈ (graph_statistics exec ctx).1 →
      d = ctx.driver) ∧
    (∀ (ρ δ : Type) (data : ρ → δ) exec ctx genre limit d q,
      Event.query d q ∈ (get_movies_by_genre data exec ctx genre limit).1 →
      d = ctx.driver) ∧
    (∀ exec ctx tmdb_id d q, Event.query d q ∈ (get_movie exec ctx tmdb_id).1 →
      d = ctx.driver) ∧
    (∀ (ρ δ : Type) (data : ρ → δ) exec ctx genre page_size cursor d q,
      Event.query d q ∈
        (list_movies_by_genre data exec ctx genre page_size cursor).1 →
      d = ctx.driver) := by
  refine ⟨fun a => rfl, ?_, ?_, ?_, ?_⟩
  · intro exec ctx d q hq
    exact (graph_statistics_query_mem exec ctx hq).1
  · intro ρ δ data exec ctx genre limit d q hq
    exact (get_movies_by_genre_query_mem data exec ctx genre limit hq).1
  · intro exec ctx tmdb_id d q hq
    exact (get_movie_query_mem exec ctx tmdb_id hq).1
  · intro ρ δ data exec ctx genre page_size cursor d q hq
    exact (list_movies_by_genre_query_mem data exec ctx genre page_size cursor hq).1

/-- Witness for C10: a concrete context is rebuilt from its two fields,
and the query event of a concrete `get_movie` run uses that context's
driver. -/
theorem claim_C10_context_shape_witness :
    (⟨⟨"u", "n", "p"⟩, "db"⟩ : AppContext) =
      ⟨(⟨⟨"u", "n", "p"⟩, "db"⟩ : AppContext).driver,
        (⟨⟨"u", "n", "p"⟩, "db"⟩ : AppContext).database⟩ ∧
    (Event.query ⟨"u", "n", "p"⟩ (movieQuery "603" "db") ∈
        (get_movie (fun _ _ => Except.ok []) ⟨⟨"u", "n", "p"⟩, "db"⟩ "603").1 →
      (⟨"u", "n", "p"⟩ : Driver) = (⟨⟨"u", "n", "p"⟩, "db"⟩ : AppContext).driver) := by
  refine ⟨claim_C10_context_shape.1 _, ?_⟩
  intro hq
  exact claim_C10_context_shape.2.2.2.1 (fun _ _ => Except.ok [])
    ⟨⟨"u", "n", "p"⟩, "db"⟩ "603" ⟨"u", "n", "p"⟩ (movieQuery "603" "db") hq

/-- C4 counterexample: the claim that every solution file registers a
readable resource fails on `src/solutions/strawberry/main.py`, which
registers only the `count_letters` tool (likewise 2c and 6c register no
resource). -/
theorem claim_C4_counterexample :
    strawberryFile ∈ solutionFiles ∧
    (strawberryFile.any Registration.isTool) = true ∧
    (strawberryFile.any Registration.isResource) = false ∧
    (file2c.any Registration.isResource) = false ∧
    (file6c.any Registration.isResource) = false := by decide

/-- C4 (amended): every solution file registers at least one callable
tool; only the 3c and 10c files register a readable resource (3c also a
prompt template); and exactly one solution file — 10c — registers the
offset-based paginated tool `list_movies_by_genre`. -/
theorem claim_C4_registrations :
    (solutionFiles.all fun f => f.any Registration.isTool) = true ∧
    (file3c.any Registration.isResource) = true ∧
    (file10c.any Registration.isResource) = true ∧
    (solutionFiles.countP
      (fun f => decide (Registration.tool "list_movies_by_genre" ∈ f)) = 1) ∧
    Registration.tool "list_movies_by_genre" ∈ file10c := by decide

/-- Packing a number below the surrogate range into a `Char` and reading
it back is the identity. -/
theorem char_toNat_ofNat {k : Nat} (h : k < 55296) : (Char.ofNat k).toNat = k := by
  rw [Char.ofNat, dif_pos (Or.inl h)]
  rfl

/-- Lowering a singleton string is the character's lowercase mapping. -/
theorem pyLower_singleton (c : Char) : pyLower [c] = pyLowerChar c := by
  simp [pyLower]

/-- Lowering distributes over appending, by flattening. -/
theorem pyLower_append (s t : List Char) :
    pyLower (s ++ t) = pyLower s ++ pyLower t := by
  simp [pyLower]

/-- Lowering splits off the head character's mapping. -/
theorem pyLower_cons (c : Char) (cs : List Char) :
    pyLower (c :: cs) = pyLowerChar c ++ pyLower cs := by
  simp [pyLower]

/-- Uppering splits off the head character's mapping. -/
theorem pyUpper_cons (c : Char) (cs : List Char) :
    pyUpper (c :: cs) = pyUpperChar c ++ pyUpper cs := by
  simp [pyUpper]

/-- On the basic Latin range — CPython's ASCII fast path, where the
fragment is the full story — a character's uppercase image lowers to the
character's own lowercase image. -/
theorem pyLower_pyUpperChar_of_ascii (c : Char) (h : c.toNat < 128) :
    pyLower (pyUpperChar c) = pyLowerChar c := by
  have hne_eacute : c ≠ 'é' := by
    intro he
    subst he
    exact absurd h (by decide)
  have hne_sharp : c ≠ 'ß' := by
    intro he
    subst he
    exact absurd h (by decide)
  have hne_Eacute : c ≠ 'É' := by
    intro he
    subst he
    exact absurd h (by decide)
  by_cases hl : 97 ≤ c.toNat ∧ c.toNat ≤ 122
  · have hup : pyUpperChar c = [Char.ofNat (c.toNat - 32)] := by
      simp only [pyUpperChar]
      rw [if_pos hl]
    have htn : (Char.ofNat (c.toNat - 32)).toNat = c.toNat - 32 :=
      char_toNat_ofNat (by omega)
    have hlow1 : pyLowerChar (Char.ofNat (c.toNat - 32)) =
        [Char.ofNat (c.toNat - 32 + 32)] := by
      simp only [pyLowerChar, htn]
      rw [if_pos (by omega)]
    have h32 : c.toNat - 32 + 32 = c.toNat := by omega
    rw [hup, pyLower_singleton, hlow1, h32, Char.ofNat_toNat]
    simp only [pyLowerChar]
    rw [if_neg (by omega), if_neg hne_Eacute]
  · have hup : pyUpperChar c = [c] := by
      simp only [pyUpperChar]
      rw [if_neg hl, if_neg hne_eacute, if_neg hne_sharp]
    rw [hup, pyLower_singleton]

/-- For basic Latin strings, lowering after uppering is plain lowering —
uppercasing is a case change the lowercasing cannot see.  (This fails
outside the basic Latin range: see the `'ß'` counterexample.) -/
theorem pyLower_pyUpper_of_ascii (s : List Char) (h : ∀ c ∈ s, c.toNat < 128) :
    pyLower (pyUpper s) = pyLower s := by
  induction s with
  | nil => rfl
  | cons c cs ih =>
    have hc : c.toNat < 128 := h c (List.mem_cons_self c cs)
    have hcs : ∀ x ∈ cs, x.toNat < 128 := fun x hx => h x (List.mem_cons_of_mem c hx)
    rw [pyUpper_cons, pyLower_append, pyLower_pyUpperChar_of_ascii c hc,
      ih hcs, pyLower_cons]

/-- The spec-side count of the empty needle is the length plus one
(a match at every position, including the final empty suffix). -/
theorem countNonOverlapping_nil (l : List Char) :
    countNonOverlapping [] l = l.length + 1 := by
  induction l with
  | nil => simp [countNonOverlapping]
  | cons c rest ih =>
    rw [countNonOverlapping]
    simp only [List.isPrefixOf, if_true, List.length_nil, Nat.zero_sub,
      List.drop_zero, List.length_cons]
    rw [ih]
    omega

/-- For a nonempty needle the spec-side count coincides with the greedy
scan used by `pyCount`. -/
theorem countNonOverlapping_eq_countOcc (needle : List Char)
    (hne : needle.isEmpty = false) (l : List Char) :
    countNonOverlapping needle l = countOcc needle l := by
  have H : ∀ (n : Nat) (l : List Char), l.length ≤ n →
      countNonOverlapping needle l = countOcc needle l := by
    intro n
    induction n with
    | zero =>
      intro l hl
      have hnil : l = [] := List.eq_nil_of_length_eq_zero (Nat.le_zero.mp hl)
      subst hnil
      rw [countNonOverlapping, countOcc, hne]
      rfl
    | succ n ih =>
      intro l hl
      cases l with
      | nil =>
        rw [countNonOverlapping, countOcc, hne]
        rfl
      | cons c rest =>
        rw [countNonOverlapping, countOcc]
        by_cases hp : needle.isPrefixOf (c :: rest) = true
        · rw [if_pos hp, if_pos hp]
          have hlen : (rest.drop (needle.length - 1)).length ≤ n := by
            have := List.length_drop (needle.length - 1) rest
            simp only [List.length_cons] at hl
            omega
          rw [ih _ hlen]
        · rw [if_neg hp, if_neg hp]
          have hlen : rest.length ≤ n := by
            simp only [List.length_cons] at hl
            omega
          rw [ih _ hlen]
  exact H l.length l (Nat.le_refl _)

/-- Function `pyCount` computes exactly the spec-side non-overlapping occurrence
count, for every needle including the empty one. -/
theorem pyCount_eq_countNonOverlapping (hay needle : List Char) :
    pyCount hay needle = countNonOverlapping needle hay := by
  by_cases he : needle.isEmpty = true
  · have hnil : needle = [] := List.isEmpty_iff.mp he
    subst hnil
    rw [pyCount, countNonOverlapping_nil]
    rfl
  · have hne : needle.isEmpty = false := Bool.eq_false_iff.mpr he
    rw [pyCount, hne, countNonOverlapping_eq_countOcc needle hne hay]
    rfl

/-- C9 counterexample: the result of `count_letters` is not invariant
under arbitrary case changes of an argument.  Under CPython's Unicode
case mapping `'ß'` uppercases to `"SS"`, and
`count_letters("SS", "ß") = "ss".count("ß") = 0` while
`count_letters("ß", "ß") = 1`. -/
theorem claim_C9_counterexample :
    pyUpper ['ß'] = ['S', 'S'] ∧
    count_letters (pyUpper ['ß']) ['ß'] ≠ count_letters ['ß'] ['ß'] ∧
    count_letters (pyUpper ['ß']) ['ß'] = 0 ∧
    count_letters ['ß'] ['ß'] = 1 := by
  have h1 : pyUpper ['ß'] = ['S', 'S'] := by decide
  have h2 : pyLower ['S', 'S'] = ['s', 's'] := by decide
  have h3 : pyLower ['ß'] = ['ß'] := by decide
  have h4 : pyCount ['s', 's'] ['ß'] = 0 := by
    simp +decide [pyCount, countOcc]
  have h5 : pyCount ['ß'] ['ß'] = 1 := by
    simp +decide [pyCount, countOcc]
  have hzero : count_letters (pyUpper ['ß']) ['ß'] = 0 := by
    simp only [count_letters, h1, h2, h3]
    exact h4
  have hone : count_letters ['ß'] ['ß'] = 1 := by
    simp only [count_letters, h3]
    exact h5
  refine ⟨h1, ?_, hzero, hone⟩
  rw [hzero, hone]
  decide

/-- C9 (amended): `count_letters(text, search)` equals the number of
non-overlapping occurrences of the lowercased search string in the
lowercased text; the result is invariant under every case change of
either argument that preserves its lowercasing — in particular under any
change of case of basic Latin letters, and under uppercasing an argument
made of basic Latin characters — but not under arbitrary Unicode case
changes (uppercasing `'ß'` changes the result). -/
theorem claim_C9_count_letters :
    (∀ text search : List Char, count_letters text search =
      countNonOverlapping (pyLower search) (pyLower text)) ∧
    (∀ t₁ t₂ s : List Char, pyLower t₁ = pyLower t₂ →
      count_letters t₁ s = count_letters t₂ s) ∧
    (∀ t s₁ s₂ : List Char, pyLower s₁ = pyLower s₂ →
      count_letters t s₁ = count_letters t s₂) ∧
    (∀ text search : List Char, (∀ c ∈ text, c.toNat < 128) →
      count_letters (pyUpper text) search = count_letters text search) ∧
    (∀ text search : List Char, (∀ c ∈ search, c.toNat < 128) →
      count_letters text (pyUpper search) = count_letters text search) := by
  refine ⟨?_, ?_, ?_, ?_, ?_⟩
  · intro text search
    exact pyCount_eq_countNonOverlapping (pyLower text) (pyLower search)
  · intro t₁ t₂ s h
    simp only [count_letters, h]
  · intro t s₁ s₂ h
    simp only [count_letters, h]
  · intro text search h
    simp only [count_letters, pyLower_pyUpper_of_ascii text h]
  · intro text search h
    simp only [count_letters, pyLower_pyUpper_of_ascii search h]

/-- Witness for C9: `"AbC"` and `"abc"` have the same lowercasing, so
`count_letters` cannot distinguish them, and uppercasing the all-ASCII
`"AbC"` leaves the count unchanged; on its non-ASCII fragment the
modelled mapping agrees with CPython (`'É'` lowers to `'é'`, so
`count_letters("É", "é") = 1`). -/
theorem claim_C9_count_letters_witness :
    pyLower "AbC".data = pyLower "abc".data ∧
    count_letters "AbC".data "B".data = count_letters "abc".data "B".data ∧
    count_letters (pyUpper "AbC".data) "B".data = count_letters "AbC".data "B".data ∧
    pyLower ['É'] = ['é'] ∧
    count_letters ['É'] ['é'] = 1 := by
  have h : pyLower "AbC".data = pyLower "abc".data := by decide
  refine ⟨h, claim_C9_count_letters.2.1 "AbC".data "abc".data "B".data h,
    claim_C9_count_letters.2.2.2.1 "AbC".data "B".data (by decide),
    by decide, ?_⟩
  have h1 : pyLower ['É'] = ['é'] := by decide
  have h2 : pyLower ['é'] = ['é'] := by decide
  simp only [count_letters, h1, h2]
  simp +decide [pyCount, countOcc]

end MCP
